import Mathlib

/-!
# Verification of the strigil job-orchestration layer

Shallow embedding of the command-building, process-coordination and
progress-interpretation logic of `strigil/gui.py` (and its simplified copy
`web_scraper/gui.py`), together with proofs about the embedded definitions.

Python integers are modelled as `Nat` (all byte counts and counters involved
are non-negative), Python lists as `List`, the `str | None` queue elements as
`Option String`, and Python exceptions from `subprocess.Popen` as an
`Except String` spawn result.
-/

namespace Strigil

/-! ## Image size presets (gui.py lines 46-50)
Small < 100 KB, Medium 100 KB - 1 MB, Large > 1 MB. -/

def SIZE_SMALL_MAX : Nat := 100 * 1024
def SIZE_MEDIUM_MIN : Nat := 100 * 1024
def SIZE_MEDIUM_MAX : Nat := 1024 * 1024
def SIZE_LARGE_MIN : Nat := 1024 * 1024

/-- `_size_to_arg` (gui.py lines 53-59): format byte count as CLI size
(e.g. 1024 -> "1k", 1048576 -> "1m"). -/
def _size_to_arg (n : Nat) : String :=
  if 1024 * 1024 ≤ n then toString (n / (1024 * 1024)) ++ "m"
  else if 1024 ≤ n then toString (n / 1024) ++ "k"
  else toString n

/-- Python `min(list)` on a possibly-empty list: `none` when empty. -/
def list_min : List Nat → Option Nat
  | [] => none
  | x :: rest =>
    some (match list_min rest with
          | none => x
          | some m => Nat.min x m)

/-- Python `max(list)` on a possibly-empty list: `none` when empty. -/
def list_max : List Nat → Option Nat
  | [] => none
  | x :: rest =>
    some (match list_max rest with
          | none => x
          | some m => Nat.max x m)

/-- `_image_size_args` (gui.py lines 62-84): CLI args for
`--min-image-size`/`--max-image-size` from the three size checkboxes.
`lows`/`highs` are accumulated in the order small, medium, large exactly as
the Python code appends them; `high` is `none` (unbounded) when Large is
selected. -/
def _image_size_args (small medium large : Bool) : List String :=
  let lows : List Nat :=
    (if small then [0] else []) ++
    (if medium then [SIZE_MEDIUM_MIN] else []) ++
    (if large then [SIZE_LARGE_MIN] else [])
  let highs : List (Option Nat) :=
    (if small then [some SIZE_SMALL_MAX] else []) ++
    (if medium then [some SIZE_MEDIUM_MAX] else []) ++
    (if large then [none] else [])
  match list_min lows with
  | none => []
  | some low =>
    let high : Option Nat :=
      if highs.contains none then none else list_max (highs.filterMap id)
    (if 0 < low then ["--min-image-size", _size_to_arg low] else []) ++
    (match high with
     | some h => ["--max-image-size", _size_to_arg h]
     | none => [])

/-- Transcribed from the spec's union rule (spec §3), for comparison with
`_image_size_args`: the effective filter is the union of the selected ranges
collapsed to a single interval, min = smallest selected lower bound
(Small 0, Medium 100 KiB, Large 1 MiB), max = largest selected upper bound
(Small 100 KiB, Medium 1 MiB) or unbounded if Large is selected; the
`--min-image-size` argument is omitted when the minimum is 0 and the
`--max-image-size` argument is omitted when the maximum is unbounded. -/
def spec_union_args (small medium large : Bool) : List String :=
  let minB : Nat :=
    if small then 0 else if medium then SIZE_MEDIUM_MIN else SIZE_LARGE_MIN
  let maxB : Option Nat :=
    if large then none
    else if medium then some SIZE_MEDIUM_MAX else some SIZE_SMALL_MAX
  (if minB = 0 then [] else ["--min-image-size", _size_to_arg minB]) ++
  (match maxB with
   | none => []
   | some h => ["--max-image-size", _size_to_arg h])

/-! ## Content-type arguments (gui.py lines 399-405, 440) -/

/-- The `selected_types` list built from the three type checkboxes in the
order pdf, text, images (gui.py lines 399-405). -/
def selected_types (pdf text images : Bool) : List String :=
  (if pdf then ["pdf"] else []) ++
  (if text then ["text"] else []) ++
  (if images then ["images"] else [])

/-- `types_args` (gui.py line 440): `["--types"] + selected_types` when the
selection is non-empty and has fewer than three entries, else `[]`. -/
def types_args (pdf text images : Bool) : List String :=
  if selected_types pdf text images ≠ [] ∧
     (selected_types pdf text images).length < 3 then
    "--types" :: selected_types pdf text images
  else []

/-! ## Configuration snapshot and command builder (gui.py lines 385-446)

The fields hold the values as `run_scrape` reads them at launch time:
`flaresolverr_url` and `done_script` are the already-`strip()`ped entry
values, `out_dir` is `out_var.get().strip() or "output"`, and `delay_str`
is the `str(delay)` rendering of the politeness delay (a float whose
textual form no claim depends on, kept as an opaque token). -/

structure Config where
  base_cmd : List String
  size_small : Bool
  size_medium : Bool
  size_large : Bool
  js : Bool
  flaresolverr : Bool
  flaresolverr_url : String
  crawl : Bool
  depth : Nat
  workers : Option Nat
  same_domain : Bool
  keep_awake : Bool
  type_pdf : Bool
  type_text : Bool
  type_images : Bool
  done_script : String
  out_dir : String
  delay_str : String
deriving DecidableEq

/-- `common_args` (gui.py lines 413-436): the flags shared by every
invocation of a run, in the order the Python code appends them. -/
def common_args (c : Config) : List String :=
  c.base_cmd ++
  _image_size_args c.size_small c.size_medium c.size_large ++
  (if c.js then ["--js"] else []) ++
  (if c.flaresolverr then
     (if c.flaresolverr_url ≠ "" then ["--flaresolverr", c.flaresolverr_url]
      else ["--flaresolverr"])
   else []) ++
  (if c.crawl then
     ["--crawl", "--max-depth", toString c.depth] ++
     (match c.workers with
      | some w => ["--workers", toString (Nat.max 1 (Nat.min 12 w))]
      | none => []) ++
     (if c.same_domain then ["--same-domain-only"] else [])
   else []) ++
  (if c.keep_awake then ["--keep-awake"] else [])

/-- `build_cmd` (gui.py lines 442-446): one scraper invocation for the given
URL list, appending `--done-script` only when asked to and a non-blank
template is present. -/
def build_cmd (c : Config) (url_list : List String)
    (include_done_script : Bool) : List String :=
  common_args c ++ ["--url"] ++ url_list ++
  ["--out-dir", c.out_dir, "--delay", c.delay_str] ++
  types_args c.type_pdf c.type_text c.type_images ++
  (if include_done_script = true ∧ c.done_script ≠ "" then
     ["--done-script", c.done_script]
   else [])

/-- The per-URL commands of a parallel run: `build_cmd([url])` for each URL
(gui.py line 464), with `include_done_script` left at its `False` default. -/
def parallel_cmds (c : Config) (urls : List String) : List (List String) :=
  urls.map (fun u => build_cmd c [u] false)

/-! ## Process runners and the shared event queue

The queue carries `str | None` in Python; `none` is the done sentinel. -/

/-- Number of done sentinels in a sequence of queue events. -/
def doneCount (q : List (Option String)) : Nat :=
  q.countP (fun e => e.isNone)

/-- The `"[i/N] "` source label of parallel runner `idx` (0-based index,
gui.py line 475). -/
def labelFor (idx num_urls : Nat) : String :=
  "[" ++ toString (idx + 1) ++ "/" ++ toString num_urls ++ "] "

/-- The queue puts of one `parallel_worker` (gui.py lines 463-482): when the
child spawns, every stream line labelled, then the sentinel from the
`finally` block; when spawning raises `e`, one synthetic labelled error
line, then the sentinel. -/
def parallel_worker_puts (idx num_urls : Nat)
    (spawn : Except String (List String)) : List (Option String) :=
  match spawn with
  | .ok lines => lines.map (fun l => some (labelFor idx num_urls ++ l)) ++ [none]
  | .error e => [some (labelFor idx num_urls ++ "Error: " ++ e ++ "\n"), none]

/-- The queue puts of the sequential `worker` (gui.py lines 514-531):
unlabelled lines then the sentinel, or a synthetic error line then the
sentinel when spawning raises. -/
def worker_puts (spawn : Except String (List String)) : List (Option String) :=
  match spawn with
  | .ok lines => lines.map some ++ [none]
  | .error e => [some ("Error: " ++ e ++ "\n"), none]

/-- Per-runner event lists of a parallel run, one per spawn outcome, indexed
from `i` as in `for i, u in enumerate(urls)` (gui.py lines 487-489). -/
def parallel_all_puts (num_urls : Nat) :
    Nat → List (Except String (List String)) → List (List (Option String))
  | _, [] => []
  | i, s :: rest =>
    parallel_worker_puts i num_urls s :: parallel_all_puts num_urls (i + 1) rest

/-- The completion test of `poll_queue_parallel` (gui.py lines 497, 503):
the run is reported complete exactly when the count of observed sentinels
has reached the URL count. -/
def parallelComplete (num_urls : Nat) (observed : List (Option String)) : Bool :=
  decide (num_urls ≤ doneCount observed)

/-! ## Stop handler state (gui.py lines 325-328, 558-574) -/

/-- The mutable state `do_stop` touches: the tracked parallel process list
`current_procs`, the sequential process slot `current_proc`, the shared
event queue, the multiset of processes that have received a terminate
request, and the two status strings. Processes are identified by `Nat`
handles. -/
structure GuiState where
  current_procs : List Nat
  current_proc : Option Nat
  output_queue : List (Option String)
  terminated : List Nat
  state_var : String
  progress_var : String
deriving DecidableEq

/-- `do_stop` (gui.py lines 558-574): snapshot and clear the tracked list
under the lock, terminate each snapshot entry (best-effort, recorded in
`terminated`), then, if a sequential process is still registered, terminate
it and enqueue one sentinel; finally set the status strings. -/
def do_stop (s : GuiState) : GuiState :=
  let s₁ : GuiState :=
    { s with current_procs := [], terminated := s.terminated ++ s.current_procs }
  match s₁.current_proc with
  | some p =>
    { s₁ with terminated := s₁.terminated ++ [p],
              output_queue := s₁.output_queue ++ [none],
              state_var := "Stopped", progress_var := "—" }
  | none => { s₁ with state_var := "Stopped", progress_var := "—" }

/-- The sequential poll loop `poll_queue` (gui.py lines 533-547) consumes
events up to and including the first sentinel and then stops; this is what
remains on the shared queue afterwards. -/
def drain_to_done : List (Option String) → List (Option String)
  | [] => []
  | none :: rest => rest
  | some _ :: rest => drain_to_done rest

/-! ## Done-script plumbing (gui.py lines 330-337, 491-508)

`os.path.abspath` is host-dependent I/O and enters the model as an opaque
function `abspath`; the shell runner invoked by `subprocess.run` enters as
an opaque `runShell` returning `Except` (an exception on the error side). -/

/-- Python `str.strip` whitespace test. -/
def isPySpace (c : Char) : Bool :=
  c = ' ' || c = '\t' || c = '\n' || c = '\r' || c = '\x0b' || c = '\x0c'

/-- Python `str.strip()`. -/
def pyStrip (s : String) : String :=
  String.mk (((s.data.dropWhile isPySpace).reverse.dropWhile isPySpace).reverse)

/-- Python `str.replace`: non-overlapping left-to-right replacement. Only
applied with the non-empty needle `"{out_dir}"`. -/
def replaceChars (needle repl : List Char) : List Char → List Char
  | [] => []
  | c :: rest =>
    if needle.isPrefixOf (c :: rest) then
      repl ++ replaceChars needle repl (List.drop (needle.length - 1) rest)
    else
      c :: replaceChars needle repl rest
termination_by l => l.length
decreasing_by
  · simp only [List.length_drop, List.length_cons]
    omega
  · simp [List.length_cons]

/-- Python `s.replace(needle, repl)`. -/
def pyReplace (s needle repl : String) : String :=
  String.mk (replaceChars needle.data repl.data s.data)

/-- The shell command `run_done_script_async` builds (gui.py line 333):
the stripped template with `{out_dir}` replaced by the absolute output
directory path. -/
def done_script_cmd (abspath : String → String) (script out : String) : String :=
  pyReplace (pyStrip script) "{out_dir}" (abspath out)

/-- `run_done_script_async` (gui.py lines 330-337): do nothing on a blank
script; otherwise run the substituted command, swallowing any failure
(`except Exception: pass`), so no error ever escapes. -/
def run_done_script_async (runShell : String → Except String Unit)
    (abspath : String → String) (script out : String) : Except String Unit :=
  if script = "" then .ok ()
  else
    match runShell (done_script_cmd abspath script out) with
    | .ok _ => .ok ()
    | .error _ => .ok ()

/-- `poll_queue_parallel` (gui.py lines 491-508) viewed over the complete
sequence of queue events of the run (successive 150 ms polls concatenated):
`count` is `parallel_done_count[0]`; once it reaches the URL count the loop
stops consuming and fires the done script exactly when a non-blank template
is configured. The returned list holds the fired shell commands. -/
def poll_parallel (abspath : String → String) (c : Config) (num_urls : Nat) :
    List (Option String) → Nat → List String
  | [], count =>
    if num_urls ≤ count then
      if c.done_script = "" then []
      else [done_script_cmd abspath c.done_script c.out_dir]
    else []
  | e :: rest, count =>
    if num_urls ≤ count then
      if c.done_script = "" then []
      else [done_script_cmd abspath c.done_script c.out_dir]
    else poll_parallel abspath c num_urls rest (if e.isNone then count + 1 else count)

/-! ## Progress interpreter (gui.py lines 352-383)

`update_status` classifies one log line by Python substring membership
tests tried in order, first match winning, and mutates the counter triple
`scrape_counts` plus the two status variables. -/

/-- Python substring containment (`needle in hay`) on char lists. -/
def substrOf (needle : List Char) : List Char → Bool
  | [] => needle.isEmpty
  | c :: rest => needle.isPrefixOf (c :: rest) || substrOf needle rest

/-- Python `pat in line`. -/
def hasSubstr (line pat : String) : Bool :=
  substrOf pat.data line.data

/-- Greedy run of leading digits (the regex token `\d+`). -/
def takeDigits : List Char → List Char × List Char
  | [] => ([], [])
  | c :: rest =>
    if c.isDigit then
      let (ds, rem) := takeDigits rest
      (c :: ds, rem)
    else ([], c :: rest)

/-- Match of the pattern `  \[(\d+)/(\d+)\]` anchored at the start of `cs`,
returning the two digit groups. A digit run followed by anything but the
required `/` or `]` fails: backtracking cannot help since `\d` and the
delimiters are disjoint. -/
def matchAssetsAt (cs : List Char) : Option (List Char × List Char) :=
  match cs with
  | ' ' :: ' ' :: '[' :: rest =>
    match takeDigits rest with
    | ([], _) => none
    | (d1, rest1) =>
      match rest1 with
      | '/' :: rest2 =>
        match takeDigits rest2 with
        | ([], _) => none
        | (d2, rest3) =>
          match rest3 with
          | ']' :: _ => some (d1, d2)
          | _ => none
      | _ => none
  | _ => none

/-- `re.search` of `  \[(\d+)/(\d+)\]`: leftmost match wins (gui.py
line 367). -/
def searchAssets : List Char → Option (List Char × List Char)
  | [] => none
  | c :: rest =>
    match matchAssetsAt (c :: rest) with
    | some r => some r
    | none => searchAssets rest

/-- The progress model: `scrape_counts` = (pdf, text, images) plus the
status-bar strings `state_var` and `progress_var`. -/
structure ProgressState where
  pdf_count : Nat
  text_count : Nat
  image_count : Nat
  state_var : String
  progress_var : String
deriving DecidableEq

/-- `set_progress` (gui.py lines 355-357). -/
def set_progress (st : ProgressState) (msg : String)
    (finished : Bool) : ProgressState :=
  { st with state_var := if finished then "Finished" else "Running",
            progress_var := msg }

/-- The counts template `f"{pdf} PDFs, {text} texts, {images} images"`. -/
def counts_msg (st : ProgressState) : String :=
  toString st.pdf_count ++ " PDFs, " ++ toString st.text_count ++ " texts, " ++
  toString st.image_count ++ " images"

/-- `update_status` (gui.py lines 359-383): the if/elif classifier chain. -/
def update_status (st : ProgressState) (line : String) : ProgressState :=
  if hasSubstr line "Running:" || hasSubstr line "Scrape:" ||
     hasSubstr line "Iteration" then
    set_progress st "Starting…" false
  else if hasSubstr line "Found:" then
    set_progress st "Mapping done — downloading…" false
  else if hasSubstr line "→ Downloading" then
    set_progress st "Downloading…" false
  else if hasSubstr line "  [" && hasSubstr line "/" && hasSubstr line "] " then
    match searchAssets line.data with
    | some (d1, d2) =>
      set_progress st (String.mk d1 ++ "/" ++ String.mk d2 ++ " assets") false
    | none => st
  else if hasSubstr line "  Text:" then
    let st' := { st with text_count := st.text_count + 1 }
    set_progress st' (counts_msg st') false
  else if hasSubstr line "  Image:" then
    let st' := { st with image_count := st.image_count + 1 }
    set_progress st' (counts_msg st') false
  else if hasSubstr line "  PDF:" then
    let st' := { st with pdf_count := st.pdf_count + 1 }
    set_progress st' (counts_msg st') false
  else if hasSubstr line "Done." then
    set_progress st (counts_msg st) true
  else st

/-- The progress state as `run_scrape` initializes it (gui.py lines
350-352): zero counters, state "Running", progress "—". -/
def initial_progress : ProgressState :=
  { pdf_count := 0, text_count := 0, image_count := 0,
    state_var := "Running", progress_var := "—" }

/-! ## Concrete sample values used by witnesses -/

/-- A concrete configuration snapshot with a non-blank done-script
template. -/
def sampleConfig : Config :=
  { base_cmd := ["strigil"], size_small := true, size_medium := true,
    size_large := true, js := true, flaresolverr := false,
    flaresolverr_url := "", crawl := true, depth := 2, workers := some 4,
    same_domain := true, keep_awake := false, type_pdf := true,
    type_text := true, type_images := true,
    done_script := "echo {out_dir}", out_dir := "output", delay_str := "0.5" }

/-- Two spawn outcomes: one clean stream, one failed spawn. -/
def sampleSpawns : List (Except String (List String)) :=
  [.ok ["hello\n"], .error "boom"]

/-- The multiplexed queue of a two-runner parallel run, in source order. -/
abbrev sampleQueue : List (Option String) :=
  List.flatten (parallel_all_puts 2 0 sampleSpawns)

/-! ## Helper lemmas on sentinel counts -/

theorem doneCount_nil : doneCount [] = 0 := rfl

theorem doneCount_cons (e : Option String) (q : List (Option String)) :
    doneCount (e :: q) = doneCount q + (if e.isNone then 1 else 0) := by
  simp [doneCount, List.countP_cons]

theorem doneCount_append (q₁ q₂ : List (Option String)) :
    doneCount (q₁ ++ q₂) = doneCount q₁ + doneCount q₂ := by
  simp [doneCount, List.countP_append]

theorem doneCount_map_some (lines : List String) (f : String → Option String)
    (hf : ∀ l, (f l).isSome) : doneCount (lines.map f) = 0 := by
  induction lines with
  | nil => rfl
  | cons h t ih =>
    have := hf h
    simp only [List.map_cons, doneCount_cons, ih]
    cases hfl : f h with
    | none => simp [hfl] at this
    | some v => simp

/-- Each parallel runner enqueues exactly one sentinel. -/
theorem doneCount_parallel_worker_puts (idx num_urls : Nat)
    (spawn : Except String (List String)) :
    doneCount (parallel_worker_puts idx num_urls spawn) = 1 := by
  cases spawn with
  | ok lines =>
    simp [parallel_worker_puts, doneCount_append,
      doneCount_map_some lines (fun l => some (labelFor idx num_urls ++ l))
        (fun l => rfl),
      doneCount_cons, doneCount_nil]
  | error e => rfl

/-- The sequential runner enqueues exactly one sentinel. -/
theorem doneCount_worker_puts (spawn : Except String (List String)) :
    doneCount (worker_puts spawn) = 1 := by
  cases spawn with
  | ok lines =>
    simp [worker_puts, doneCount_append,
      doneCount_map_some lines some (fun l => rfl), doneCount_cons, doneCount_nil]
  | error e => rfl

/-- A parallel run of `spawns.length` runners enqueues `spawns.length`
sentinels in total, whatever each spawn's outcome. -/
theorem doneCount_flatten_parallel_all_puts (num_urls : Nat)
    (spawns : List (Except String (List String))) (i : Nat) :
    doneCount (List.flatten (parallel_all_puts num_urls i spawns)) =
      spawns.length := by
  induction spawns generalizing i with
  | nil => rfl
  | cons s rest ih =>
    simp [parallel_all_puts, doneCount_append,
      doneCount_parallel_worker_puts, ih, Nat.add_comm]

/-- When the stream carries exactly the missing number of sentinels, the
parallel poll loop completes and fires the done script exactly once
(or not at all on a blank template). -/
theorem poll_parallel_complete (abspath : String → String) (c : Config)
    (num_urls : Nat) (q : List (Option String)) :
    ∀ count : Nat, count ≤ num_urls → count + doneCount q = num_urls →
      poll_parallel abspath c num_urls q count =
        if c.done_script = "" then []
        else [done_script_cmd abspath c.done_script c.out_dir] := by
  induction q with
  | nil =>
    intro count hle hsum
    simp only [doneCount_nil, Nat.add_zero] at hsum
    subst hsum
    simp [poll_parallel]
  | cons e rest ih =>
    intro count hle hsum
    by_cases hc : num_urls ≤ count
    · simp [poll_parallel, hc]
    · rw [doneCount_cons] at hsum
      simp only [poll_parallel, if_neg hc]
      cases e with
      | none =>
        simp only [Option.isNone_none, if_pos rfl]
        exact ih (count + 1) (by simp at hsum; omega) (by simp at hsum; omega)
      | some v =>
        have hneg : ¬((some v : Option String).isNone = true) := by simp
        rw [if_neg hneg]
        exact ih count (by omega) (by simp at hsum; omega)

/-! ## More helper lemmas for the parallel coordinator -/

theorem length_parallel_all_puts (num_urls i : Nat)
    (spawns : List (Except String (List String))) :
    (parallel_all_puts num_urls i spawns).length = spawns.length := by
  induction spawns generalizing i with
  | nil => rfl
  | cons s rest ih => simp [parallel_all_puts, ih]

/-- Every line a parallel runner enqueues carries its `"[i/N] "` label. -/
theorem parallel_worker_puts_labelled (idx num_urls : Nat)
    (spawn : Except String (List String)) (s : String)
    (h : some s ∈ parallel_worker_puts idx num_urls spawn) :
    ∃ rest, s = labelFor idx num_urls ++ rest := by
  cases spawn with
  | ok lines =>
    simp only [parallel_worker_puts, List.mem_append, List.mem_map,
      List.mem_singleton] at h
    rcases h with ⟨l, _, hl⟩ | h
    · exact ⟨l, (Option.some_injective _ hl).symm⟩
    · simp at h
  | error e =>
    simp only [parallel_worker_puts, List.mem_cons, List.mem_singleton] at h
    rcases h with h | h
    · refine ⟨"Error: " ++ e ++ "\n", ?_⟩
      rw [Option.some_injective _ h, String.append_assoc, String.append_assoc,
        String.append_assoc]
    · simp at h

/-! ## Claims C3 and C5 -/

/-- C3: every spawned process-runner worker enqueues exactly one done
sentinel — on clean or unclean stream end and on spawn failure alike — and
in the spawn-failure case exactly one synthetic line carrying the failure
message precedes the sentinel, in both the parallel and the sequential
runner. -/
theorem worker_single_done_sentinel (idx num_urls : Nat)
    (spawn : Except String (List String)) (e : String) :
    doneCount (parallel_worker_puts idx num_urls spawn) = 1 ∧
    doneCount (worker_puts spawn) = 1 ∧
    parallel_worker_puts idx num_urls (.error e) =
      [some (labelFor idx num_urls ++ "Error: " ++ e ++ "\n"), none] ∧
    worker_puts (.error e) = [some ("Error: " ++ e ++ "\n"), none] :=
  ⟨doneCount_parallel_worker_puts idx num_urls spawn,
   doneCount_worker_puts spawn, rfl, rfl⟩

/-- C5: invoking the stop handler a second time on an already-stopped run
(no sequential process registered) changes nothing: the tracked-process
set, the event queue, the terminate requests and the status strings are
exactly as the first invocation left them, and the handler is total, so no
error is raised. -/
theorem do_stop_idempotent_when_stopped (s : GuiState)
    (h : s.current_proc = none) :
    do_stop (do_stop s) = do_stop s := by
  simp [do_stop, h]

/-- Witness for C5 on a concrete stopped state. -/
theorem do_stop_idempotent_when_stopped_witness :
    do_stop (do_stop (GuiState.mk [] none [some "x\n"] [7] "Stopped" "—")) =
      do_stop (GuiState.mk [] none [some "x\n"] [7] "Stopped" "—") :=
  do_stop_idempotent_when_stopped _ rfl

/-! ## Claims C1, C7, C8, C10 -/

/-- C1: for every non-empty selection of the Small/Medium/Large image-size
checkboxes, `_image_size_args` emits exactly the collapsed-union
`[min, max]` pair prescribed by the spec (min omitted when 0, max omitted
when unbounded); in particular Medium only yields min "100k" / max "1m",
and Small+Large yields neither argument. -/
theorem image_size_args_union_rule :
    (∀ small medium large : Bool, (small || medium || large) = true →
      _image_size_args small medium large = spec_union_args small medium large) ∧
    _image_size_args false true false =
      ["--min-image-size", "100k", "--max-image-size", "1m"] ∧
    _image_size_args true false true = [] := by
  decide

/-- Witness for C1 at the Medium-only selection. -/
theorem image_size_args_union_rule_witness :
    (false || true || false) = true ∧
    _image_size_args false true false = spec_union_args false true false :=
  ⟨by decide, image_size_args_union_rule.1 false true false (by decide)⟩

/-- C10: when none of the three image-size checkboxes is selected the
command builder emits no size-filter argument at all, the same
unconstrained result as selecting all three ranges. -/
theorem image_size_args_empty_selection :
    _image_size_args false false false = [] ∧
    _image_size_args false false false = _image_size_args true true true := by
  decide

/-- C7: for every non-empty selection of content types, `--types` followed by
the selected types is emitted if and only if the selection is a strict
subset of {pdf, text, images}; with all three selected no `--types`
argument appears. -/
theorem types_args_strict_subset :
    (∀ pdf text images : Bool, selected_types pdf text images ≠ [] →
      (types_args pdf text images = "--types" :: selected_types pdf text images ↔
        ¬(pdf = true ∧ text = true ∧ images = true))) ∧
    types_args true true true = [] := by
  decide

/-- Witness for C7 at the pdf-only selection. -/
theorem types_args_strict_subset_witness :
    selected_types true false false ≠ [] ∧
    (types_args true false false = "--types" :: selected_types true false false ↔
      ¬(true = true ∧ false = true ∧ false = true)) :=
  ⟨by decide, types_args_strict_subset.1 true false false (by decide)⟩

/-- C8 counterexample: 1536 bytes is a multiple of neither 1 KiB nor 1 MiB,
so the claim requires the raw decimal digits "1536", but `_size_to_arg`
renders every count of at least 1 KiB with the "k" shorthand and yields
"1k". -/
theorem size_to_arg_c8_counterexample :
    _size_to_arg 1536 = "1k" ∧ ¬(1024 ∣ 1536) ∧ ¬(1024 * 1024 ∣ 1536) ∧
    _size_to_arg 1536 ≠ "1536" := by
  decide

/-- C8 (amended): `_size_to_arg` renders n as `<n / 1MiB>m` whenever
n ≥ 1 MiB, as `<n / 1KiB>k` whenever 1 KiB ≤ n < 1 MiB, and as the raw
decimal digits of n when n < 1 KiB; consequently positive exact multiples
of 1 MiB, and positive exact multiples of 1 KiB below 1 MiB, are rendered
with the shorthand the claim describes. -/
theorem size_to_arg_threshold_format (n : Nat) :
    (1024 * 1024 ≤ n → _size_to_arg n = toString (n / (1024 * 1024)) ++ "m") ∧
    (1024 ≤ n → n < 1024 * 1024 → _size_to_arg n = toString (n / 1024) ++ "k") ∧
    (n < 1024 → _size_to_arg n = toString n) ∧
    (1024 * 1024 ∣ n → 0 < n →
      _size_to_arg n = toString (n / (1024 * 1024)) ++ "m") ∧
    (1024 ∣ n → 0 < n → n < 1024 * 1024 →
      _size_to_arg n = toString (n / 1024) ++ "k") := by
  refine ⟨?_, ?_, ?_, ?_, ?_⟩
  · intro h
    simp [_size_to_arg, h]
  · intro h₁ h₂
    simp [_size_to_arg, h₁, Nat.not_le.mpr h₂]
  · intro h
    have h₁ : ¬(1024 * 1024 ≤ n) := by omega
    have h₂ : ¬(1024 ≤ n) := by omega
    simp [_size_to_arg, h₁, h₂]
  · intro hd h0
    have h : 1024 * 1024 ≤ n := Nat.le_of_dvd h0 hd
    simp [_size_to_arg, h]
  · intro hd h0 hlt
    have h : 1024 ≤ n := Nat.le_of_dvd h0 hd
    simp [_size_to_arg, h, Nat.not_le.mpr hlt]

/-- Witness for amended C8 at n = 2048 (an exact multiple of 1 KiB). -/
theorem size_to_arg_threshold_format_witness :
    _size_to_arg 2048 = toString (2048 / 1024) ++ "k" :=
  (size_to_arg_threshold_format 2048).2.1 (by decide) (by decide)

/-! ## Claim C2 -/

/-- C2: in parallel mode with N URLs (N > 1) the coordinator builds one
command per URL, spawns one process runner per URL, every line event a
runner enqueues carries its 1-based `"[i/N] "` label, and — whatever the
interleaving of the runner streams onto the shared queue — the run is
reported complete if and only if exactly N done sentinels have been
observed. -/
theorem parallel_run_complete_iff
    (c : Config) (urls : List String)
    (spawns : List (Except String (List String)))
    (hlen : spawns.length = urls.length) (hN : 1 < urls.length)
    (q p : List (Option String))
    (hq : List.Perm q (List.flatten (parallel_all_puts urls.length 0 spawns)))
    (hp : List.IsPrefix p q) :
    (parallel_cmds c urls).length = urls.length ∧
    (parallel_all_puts urls.length 0 spawns).length = urls.length ∧
    (∀ idx spawn s, some s ∈ parallel_worker_puts idx urls.length spawn →
      ∃ rest, s = labelFor idx urls.length ++ rest) ∧
    (parallelComplete urls.length p = true ↔ doneCount p = urls.length) := by
  refine ⟨by simp [parallel_cmds], by rw [length_parallel_all_puts, hlen],
    fun idx spawn s h => parallel_worker_puts_labelled idx urls.length spawn s h,
    ?_⟩
  have hq' : doneCount q = urls.length := by
    calc doneCount q
        = doneCount (List.flatten (parallel_all_puts urls.length 0 spawns)) :=
          by simpa [doneCount] using hq.countP_eq (fun e => e.isNone)
      _ = spawns.length := doneCount_flatten_parallel_all_puts _ _ _
      _ = urls.length := hlen
  have hple : doneCount p ≤ urls.length := by
    have h := (hp.sublist).countP_le (fun e => e.isNone)
    rw [← hq']
    exact h
  simp only [parallelComplete, decide_eq_true_eq]
  omega

/-- Witness for C2: two URLs, one clean stream and one failed spawn,
observing the whole queue in source order. -/
theorem parallel_run_complete_iff_witness :
    (parallel_cmds sampleConfig ["http://a", "http://b"]).length =
      ["http://a", "http://b"].length ∧
    (parallel_all_puts ["http://a", "http://b"].length 0 sampleSpawns).length =
      ["http://a", "http://b"].length ∧
    (∀ idx spawn s,
      some s ∈ parallel_worker_puts idx ["http://a", "http://b"].length spawn →
      ∃ rest, s = labelFor idx ["http://a", "http://b"].length ++ rest) ∧
    (parallelComplete ["http://a", "http://b"].length sampleQueue = true ↔
      doneCount sampleQueue = ["http://a", "http://b"].length) :=
  parallel_run_complete_iff sampleConfig ["http://a", "http://b"] sampleSpawns
    (by decide) (by decide) sampleQueue sampleQueue
    (List.Perm.refl _) (List.prefix_refl _)

/-! ## Claim C4 -/

/-- C4: with a non-blank template the sequential invocation gets
`--done-script <template>` appended; the per-URL parallel commands are
independent of the template, so none carries `--done-script`; upon full
completion (all N sentinels observed) the parallel coordinator fires the
script exactly once, with `{out_dir}` substituted by the absolute output
directory; and no failure of the script escapes the fire-and-forget
runner. -/
theorem done_script_once_on_completion
    (c : Config) (urls : List String) (tmpl : String)
    (abspath : String → String) (runShell : String → Except String Unit)
    (q : List (Option String)) (num_urls : Nat) :
    (c.done_script ≠ "" →
      build_cmd c urls true =
        build_cmd c urls false ++ ["--done-script", c.done_script]) ∧
    (parallel_cmds { c with done_script := tmpl } urls =
      parallel_cmds { c with done_script := "" } urls) ∧
    (doneCount q = num_urls →
      poll_parallel abspath c num_urls q 0 =
        if c.done_script = "" then []
        else [done_script_cmd abspath c.done_script c.out_dir]) ∧
    run_done_script_async runShell abspath c.done_script c.out_dir = .ok () := by
  refine ⟨?_, ?_, ?_, ?_⟩
  · intro h
    simp [build_cmd, h]
  · simp [parallel_cmds, build_cmd, common_args, types_args, selected_types]
  · intro h
    exact poll_parallel_complete abspath c num_urls q 0 (Nat.zero_le _) (by omega)
  · unfold run_done_script_async
    by_cases h : c.done_script = ""
    · simp [h]
    · rw [if_neg h]
      cases runShell (done_script_cmd abspath c.done_script c.out_dir) <;> rfl

/-- Witness for C4: concrete template "echo {out_dir}", a two-sentinel
queue, identity as the absolute-path function, and a failing shell
runner. -/
theorem done_script_once_on_completion_witness :
    build_cmd sampleConfig ["http://a"] true =
      build_cmd sampleConfig ["http://a"] false ++
        ["--done-script", "echo {out_dir}"] ∧
    poll_parallel (fun s => s) sampleConfig 2 [none, none] 0 =
      [done_script_cmd (fun s => s) "echo {out_dir}" "output"] ∧
    run_done_script_async (fun _ => .error "fail") (fun s => s)
      "echo {out_dir}" "output" = .ok () := by
  have h := done_script_once_on_completion sampleConfig ["http://a"] ""
    (fun s => s) (fun _ => .error "fail") [none, none] 2
  refine ⟨h.1 (by decide), ?_, h.2.2.2⟩
  have h3 := h.2.2.1 (by decide)
  rw [if_neg (by decide)] at h3
  exact h3

/-! ## Claim C9 -/

/-- After the poll loop consumes through the first of two sentinels, one
sentinel remains on the queue. -/
theorem doneCount_drain_to_done_of_two (q : List (Option String))
    (h : doneCount q = 2) : doneCount (drain_to_done q) = 1 := by
  induction q with
  | nil => simp [doneCount_nil] at h
  | cons e rest ih =>
    cases e with
    | none =>
      simp [doneCount_cons] at h
      show doneCount rest = 1
      omega
    | some v =>
      simp [doneCount_cons] at h
      show doneCount (drain_to_done rest) = 1
      exact ih (by omega)

/-- C9: if stop is invoked while the sequential child is still registered,
the stop handler enqueues a done sentinel, and the reader thread enqueues
another when the terminated process's stream closes — two sentinels for the
single job, not one — and after the run's poll loop consumes through the
first sentinel, a surplus sentinel remains on the shared queue for a
subsequent run's poll loop to consume. -/
theorem stop_while_running_double_sentinel
    (s : GuiState) (pid : Nat) (h : s.current_proc = some pid)
    (spawn : Except String (List String)) (q : List (Option String))
    (hq : List.Perm q (worker_puts spawn ++ [none])) :
    (do_stop s).output_queue = s.output_queue ++ [none] ∧
    doneCount (worker_puts spawn ++ [none]) = 2 ∧
    doneCount q = 2 ∧ doneCount q ≠ 1 ∧
    doneCount (drain_to_done q) = 1 := by
  have h2 : doneCount (worker_puts spawn ++ [none]) = 2 := by
    rw [doneCount_append, doneCount_worker_puts]
    rfl
  have hq2 : doneCount q = 2 := by
    calc doneCount q = doneCount (worker_puts spawn ++ [none]) :=
          by simpa [doneCount] using hq.countP_eq (fun e => e.isNone)
      _ = 2 := h2
  exact ⟨by simp [do_stop, h], h2, hq2, by omega,
    doneCount_drain_to_done_of_two q hq2⟩

/-- Witness for C9 on a run with a registered sequential process and an
empty output stream. -/
theorem stop_while_running_double_sentinel_witness :
    (do_stop (GuiState.mk [] (some 3) [] [] "Running" "—")).output_queue =
      (GuiState.mk [] (some 3) [] [] "Running" "—").output_queue ++ [none] ∧
    doneCount (worker_puts (.ok []) ++ [none]) = 2 ∧
    doneCount (worker_puts (.ok []) ++ [none]) = 2 ∧
    doneCount (worker_puts (.ok []) ++ [none]) ≠ 1 ∧
    doneCount (drain_to_done (worker_puts (.ok []) ++ [none])) = 1 :=
  stop_while_running_double_sentinel (GuiState.mk [] (some 3) [] [] "Running" "—")
    3 rfl (.ok []) (worker_puts (.ok []) ++ [none]) (List.Perm.refl _)

/-! ## Claim C6 -/

/-- C6: feeding the four sample lines from zero counters yields the final
phase string "1 PDFs, 1 texts, 1 images"; a line matching none of the
recognized patterns changes neither phase nor counters (the interpreter is
a total function, so nothing is raised); and the patterns are tried in the
priority order of the spec, first match winning, so a line containing
several artifact markers is counted once, by the earliest matching
pattern. -/
theorem progress_interpreter_four_lines :
    ((["Found: 12 items", "  PDF: a.pdf", "  Image: b.jpg", "  Text: c.txt"
      ].foldl update_status initial_progress).progress_var =
        "1 PDFs, 1 texts, 1 images") ∧
    (∀ st line,
      hasSubstr line "Running:" = false → hasSubstr line "Scrape:" = false →
      hasSubstr line "Iteration" = false → hasSubstr line "Found:" = false →
      hasSubstr line "→ Downloading" = false → hasSubstr line "  [" = false →
      hasSubstr line "  Text:" = false → hasSubstr line "  Image:" = false →
      hasSubstr line "  PDF:" = false → hasSubstr line "Done." = false →
      update_status st line = st) ∧
    (update_status initial_progress "  Text: a  Image: b  PDF: c" =
      { initial_progress with
          text_count := 1,
          progress_var := "0 PDFs, 1 texts, 0 images" }) := by
  refine ⟨by decide, ?_, by decide⟩
  intro st line h1 h2 h3 h4 h5 h6 h7 h8 h9 h10
  simp [update_status, h1, h2, h3, h4, h5, h6, h7, h8, h9, h10]

/-- Witness for C6 on a line matching no pattern. -/
theorem progress_interpreter_four_lines_witness :
    update_status initial_progress "fetching page 3" = initial_progress :=
  progress_interpreter_four_lines.2.1 initial_progress "fetching page 3"
    (by decide) (by decide) (by decide) (by decide) (by decide)
    (by decide) (by decide) (by decide) (by decide) (by decide)

end Strigil
